import Mathlib

/-!
Verification development for the InformedChoice backend's lazy
enrichment / fill-on-read pipeline (backend/app/crud.py, backend/app/main.py).

The Python source is shallowly embedded below:
  * database rows are the `Row` structure (one row of the `products` table);
  * the four external reasoning calls are modelled by the `Oracles`
    structure, which fixes the outcome (validated payload or failure kind)
    that each agent call would produce during one invocation;
  * exceptions are modelled with `Except PyErr`;
  * the accumulated `set_query` string, the parameter dictionary of the
    partial UPDATE, and the Python substring tests on `set_query` are kept
    as literal string computations, exactly as the source builds them.
-/

namespace InformedChoice

/-! ## Python string helpers -/

/-- Test whether the list `p` is an initial segment of `s` (on characters). -/
def listLeads : List Char → List Char → Bool
  | [], _ => true
  | _ :: _, [] => false
  | a :: as, b :: bs => a = b && listLeads as bs

/-- Test whether `needle` occurs as a contiguous run inside `hay`. -/
def listOccurs (needle : List Char) : List Char → Bool
  | [] => listLeads needle []
  | c :: cs => listLeads needle (c :: cs) || listOccurs needle cs

/-- Python `needle in hay` on strings: substring containment. -/
def substrIn (needle hay : String) : Bool :=
  listOccurs needle.toList hay.toList

/-- Python `s.startswith(p)` / the scheme test used for URL validation. -/
def strLeads (p s : String) : Bool :=
  listLeads p.toList s.toList

/-- Python `s.rstrip(', ')`: drop trailing commas and spaces. -/
def rstripCommaSpace (s : String) : String :=
  ⟨(s.toList.reverse.dropWhile (fun c => c = ',' || c = ' ')).reverse⟩

/-- Helper for `splitCommaSemi`, structurally recursive on the character
list so that it evaluates inside the kernel. -/
def splitCommaSemiList : List Char → List String
  | [] => [""]
  | c :: cs =>
    if c = ',' || c = ';' then "" :: splitCommaSemiList cs
    else
      match splitCommaSemiList cs with
      | [] => [⟨[c]⟩]
      | t :: ts => ⟨c :: t.data⟩ :: ts

/-- Python `re.split(r'[,;]', s)`: split at every comma or semicolon,
keeping empty pieces (so the empty string yields `[""]`). -/
def splitCommaSemi (s : String) : List String :=
  splitCommaSemiList s.toList

/-- Python `s.strip()`: drop ASCII whitespace from both ends (structural,
so that it evaluates inside the kernel). -/
def pyIsSpace (c : Char) : Bool :=
  c = ' ' || c = '\t' || c = '\n' || c = '\r' || c = '\x0b' || c = '\x0c'

/-- Python `s.strip()` on a string. -/
def pyStrip (s : String) : String :=
  ⟨((s.toList.dropWhile pyIsSpace).reverse.dropWhile pyIsSpace).reverse⟩

/-- Python truthiness of an optional string (`None` and `""` are falsy). -/
def pyTruthyOptStr : Option String → Bool
  | none => false
  | some s => s != ""

/-- Python truthiness of an optional int (`None` and `0` are falsy). -/
def pyTruthyOptInt : Option Int → Bool
  | none => false
  | some i => i != 0

/-- Python `a or b or None` on two optional strings, as used for
`row['brand_name'] or row['brand_owner'] or None` in crud.py. -/
def pyOr (a b : Option String) : Option String :=
  if pyTruthyOptStr a then a else if pyTruthyOptStr b then b else none

/-! ## Data model (app/schemas.py and the products table) -/

/-- Structure `HealthIssueDetail` of app/schemas.py. -/
structure HealthIssueDetail where
  issue : String
  evidence : String
deriving DecidableEq, Repr

/-- Structure `IngredientHealthIssue` of app/schemas.py. -/
structure IngredientHealthIssue where
  ingredient : String
  issues : List HealthIssueDetail
deriving DecidableEq, Repr

/-- Structure `PotentialHealthIssues` of app/schemas.py. -/
structure PotentialHealthIssues where
  potential_health_issues : List IngredientHealthIssue
deriving DecidableEq, Repr

/-- Validated payload `DieticanAgentResponse` of app/schemas.py
(`score` is pydantic-constrained to 1..5 at the oracle boundary). -/
structure DieticanAgentResponse where
  score : Int
  score_explanation : String
deriving DecidableEq, Repr

/-- One row of the `products` table, with the columns read or written by
`search_products_by` in crud.py.  Nullable columns are `Option`s. -/
structure Row where
  fdc_id : Int
  description : String
  brand_name : Option String
  brand_owner : Option String
  ingredients : String
  nutrition_info : String
  branded_food_category : Option String
  processed_score : Option Int
  processed_score_explanation : Option String
  nutrition_score : Option Int
  nutrition_score_explanation : Option String
  health_issues : Option PotentialHealthIssues
  url : Option String
deriving DecidableEq, Repr

/-- Request model `ProductSearchRequest` (identical in app/schemas.py and
app/core/schemas.py: all three fields optional, defaulting to None). -/
structure ProductSearchRequest where
  fdc_id : Option Int
  gtin_upc : Option String
  query : Option String
deriving DecidableEq, Repr

/-- Response model `ProductSearchResponse` of app/schemas.py.  The
`retailer` field is commented out at the construction site in crud.py and
is omitted here. -/
structure ProductSearchResponse where
  name : String
  brand : Option String
  ingredients : List String
  category : Option String
  processed_score : Int
  processed_score_explanation : String
  nutrition_score : Int
  nutrition_score_explanation : String
  health_issues : PotentialHealthIssues
  url : Option String
deriving DecidableEq, Repr

/-! ## Oracle and error model -/

/-- The four oracle call sites of crud.py. -/
inductive OracleKind
  | processedScore
  | nutritionScore
  | healthIssues
  | productUrl
deriving DecidableEq, Repr

/-- Failure kinds of a single oracle call (spec section 6: timeout,
malformed structured output, schema-validation failure). -/
inductive OracleErr
  | timeout
  | malformedOutput
  | validationError
deriving DecidableEq, Repr

/-- Python exceptions that can escape the embedded functions. -/
inductive PyErr
  /-- An exception escaping one of the agent `.arun` calls. -/
  | oracleFailure (kind : OracleKind) (e : OracleErr)
  /-- A pydantic ValidationError raised while constructing
  `ProductSearchResponse`, tagged with the offending field. -/
  | responseValidation (field : String)
  /-- Python UnboundLocalError for the named local variable. -/
  | unboundLocal (v : String)
  /-- A fastapi HTTPException with status code and detail. -/
  | httpException (status : Int) (detail : String)
deriving DecidableEq, Repr

/-- Outcome fixed for each oracle during one pipeline invocation: either the
validated payload the agent call returns, or the failure it raises. -/
structure Oracles where
  processedScore : Except OracleErr DieticanAgentResponse
  nutritionScore : Except OracleErr DieticanAgentResponse
  healthIssues : Except OracleErr PotentialHealthIssues
  productUrl : Except OracleErr String
deriving Repr

/-- One recorded oracle call: the call site together with the raw text
argument handed to the corresponding crud.py helper. -/
inductive OracleCall
  | processedScore (input : String)
  | nutritionScore (input : String)
  | healthIssues (input : String)
  | productUrl (name : String) (brand : Option String)
deriving DecidableEq, Repr

/-- Prompt string that each call site interpolates into `.arun`
(the f-strings of crud.py lines 200, 211, 222, 231). -/
def arunPrompt : OracleCall → String
  | .processedScore i => "Ingredients: " ++ i
  | .nutritionScore n => "Nutritional Information: " ++ n
  | .healthIssues i => "Ingredients: " ++ i
  | .productUrl name brand =>
      name ++ " " ++ (if pyTruthyOptStr brand then "by " ++ brand.getD "" else "")

/-! ## crud.py oracle wrappers -/

/-- Function `calculate_processed_score` of crud.py: no exception handling;
on success returns the score and the stripped explanation. -/
def calculate_processed_score (_ingredients : String) (o : Oracles) :
    Except PyErr (Int × String) :=
  match o.processedScore with
  | .ok r => .ok (r.score, pyStrip r.score_explanation)
  | .error e => .error (.oracleFailure .processedScore e)

/-- Function `calculate_nutrition_score` of crud.py: no exception handling;
on success returns the score and the stripped explanation. -/
def calculate_nutrition_score (_nutrients : String) (o : Oracles) :
    Except PyErr (Int × String) :=
  match o.nutritionScore with
  | .ok r => .ok (r.score, pyStrip r.score_explanation)
  | .error e => .error (.oracleFailure .nutritionScore e)

/-- Function `get_health_issues` of crud.py: no exception handling. -/
def get_health_issues (_ingredients : String) (o : Oracles) :
    Except PyErr PotentialHealthIssues :=
  match o.healthIssues with
  | .ok h => .ok h
  | .error e => .error (.oracleFailure .healthIssues e)

/-- Function `get_product_url` of crud.py.  The try block returns
`str(result.content.strip())` for any successful content (the `HttpUrl`
type hint performs no runtime validation), and the handler catches only
`ValidationError`, returning None; other failures propagate. -/
def get_product_url (_name : String) (_brand : Option String) (o : Oracles) :
    Except PyErr (Option String) :=
  match o.productUrl with
  | .ok content => .ok (some (pyStrip content))
  | .error .validationError => .ok none
  | .error e => .error (.oracleFailure .productUrl e)

/-! ## The partial UPDATE statement -/

/-- Value bound to an UPDATE parameter (Python None binds SQL NULL; the
health-issues parameter is the `json.dumps` serialization of the model,
which determines and is determined by the model value). -/
inductive SqlValue
  | null
  | int (i : Int)
  | str (s : String)
  | jsonb (h : PotentialHealthIssues)
deriving DecidableEq, Repr

/-- Binding of a possibly-None Python string as an SQL parameter. -/
def sqlOfOptStr : Option String → SqlValue
  | none => .null
  | some s => .str s

/-- The UPDATE statement crud.py submits: the SQL text `update_query` and
the bound-parameter dict `update_params` (keys in insertion order). -/
structure UpdateStmt where
  query : String
  params : List (String × SqlValue)
deriving DecidableEq, Repr

/-- Fragment appended to `set_query` when the processed score is pending
(crud.py line 92). -/
def pFrag : String :=
  "processed_score = :processed_score, processed_score_explanation = :processed_score_explanation, "

/-- Fragment appended to `set_query` when the nutrition score is pending
(crud.py line 100). -/
def nFrag : String :=
  "nutrition_score = :nutrition_score, nutrition_score_explanation = :nutrition_score_explanation, "

/-- Fragment appended to `set_query` when the health issues are pending
(crud.py line 108). -/
def hFrag : String :=
  "health_issues = :health_issues, "

/-- Fragment appended to `set_query` when the url was pending and the
lookup returned a truthy string (crud.py line 116). -/
def uFrag : String :=
  "url = :url, "

/-- The accumulated `set_query` string, as a function of which of the four
branches appended their fragment (appends happen in source order). -/
def setQueryOf (p n h u : Bool) : String :=
  (if p then pFrag else "") ++ (if n then nFrag else "")
    ++ (if h then hFrag else "") ++ (if u then uFrag else "")

/-- The `update_params` dict of crud.py lines 123-140: `fdc_id` first, then
per-field parameters guarded by Python substring tests on `set_query`. -/
def updateParamsOf (set_query : String) (fdc_id : Int)
    (processed_score : Int) (processed_score_explanation : Option String)
    (nutrition_score : Int) (nutrition_score_explanation : Option String)
    (health_issues : PotentialHealthIssues) (url : Option String) :
    List (String × SqlValue) :=
  [("fdc_id", SqlValue.int fdc_id)]
    ++ (if substrIn "processed_score" set_query then
          [("processed_score", SqlValue.int processed_score),
           ("processed_score_explanation", sqlOfOptStr processed_score_explanation)]
        else [])
    ++ (if substrIn "nutrition_score" set_query then
          [("nutrition_score", SqlValue.int nutrition_score),
           ("nutrition_score_explanation", sqlOfOptStr nutrition_score_explanation)]
        else [])
    ++ (if substrIn "health_issues" set_query then
          [("health_issues", SqlValue.jsonb health_issues)]
        else [])
    ++ (if substrIn "url" set_query then [("url", sqlOfOptStr url)] else [])

/-- Lookup of a bound parameter by name. -/
def lookupParam (k : String) (ps : List (String × SqlValue)) : Option SqlValue :=
  (ps.find? (fun p => p.1 == k)).map Prod.snd

/-- Effect of executing the submitted UPDATE on the stored row: each
assignment of the SET clause names the column identically to its bound
parameter, and the row is touched only when the `WHERE fdc_id = :fdc_id`
condition matches the bound identifier. -/
def applyUpdate (row : Row) (u : UpdateStmt) : Row :=
  match lookupParam "fdc_id" u.params with
  | some (SqlValue.int i) =>
    if i = row.fdc_id then
      let row := match lookupParam "processed_score" u.params with
        | some (SqlValue.int v) => { row with processed_score := some v }
        | _ => row
      let row := match lookupParam "processed_score_explanation" u.params with
        | some (SqlValue.str s) => { row with processed_score_explanation := some s }
        | some SqlValue.null => { row with processed_score_explanation := none }
        | _ => row
      let row := match lookupParam "nutrition_score" u.params with
        | some (SqlValue.int v) => { row with nutrition_score := some v }
        | _ => row
      let row := match lookupParam "nutrition_score_explanation" u.params with
        | some (SqlValue.str s) => { row with nutrition_score_explanation := some s }
        | some SqlValue.null => { row with nutrition_score_explanation := none }
        | _ => row
      let row := match lookupParam "health_issues" u.params with
        | some (SqlValue.jsonb h) => { row with health_issues := some h }
        | _ => row
      let row := match lookupParam "url" u.params with
        | some (SqlValue.str s) => { row with url := some s }
        | some SqlValue.null => { row with url := none }
        | _ => row
      row
    else row
  | _ => row

/-- Behaviour of the store during one invocation: whether executing the
partial UPDATE raises, and whether the commit raises. -/
structure StoreBehavior where
  updateFails : Bool
  commitFails : Bool
deriving DecidableEq, Repr

/-! ## The enrichment pipeline -/

/-- Everything observable about one run of the body of
`search_products_by` on a fetched row: the returned value or escaped
exception, the oracle calls made (in order), the UPDATE statement
submitted to the store (if any), and the row's state afterwards. -/
structure EnrichOutcome where
  result : Except PyErr ProductSearchResponse
  calls : List OracleCall
  update : Option UpdateStmt
  rowAfter : Row
deriving Repr

/-- Construction of `ProductSearchResponse` (crud.py lines 151-163) with
the pydantic validation relevant here: scores must lie in 1..5, the
explanation fields must be strings (not None), and a non-None url must be
a valid http(s) URL.  URL validity is abstracted to the scheme test, which
is exact on every URL-shaped and sentinel string appearing below. -/
def mkProductSearchResponse (name : String) (brand : Option String)
    (ingredients : List String) (category : Option String)
    (processed_score : Int) (processed_score_explanation : Option String)
    (nutrition_score : Int) (nutrition_score_explanation : Option String)
    (health_issues : PotentialHealthIssues) (url : Option String) :
    Except PyErr ProductSearchResponse :=
  if ¬ (1 ≤ processed_score ∧ processed_score ≤ 5) then
    .error (.responseValidation "processed_score")
  else match processed_score_explanation with
  | none => .error (.responseValidation "processed_score_explanation")
  | some pse =>
    if ¬ (1 ≤ nutrition_score ∧ nutrition_score ≤ 5) then
      .error (.responseValidation "nutrition_score")
    else match nutrition_score_explanation with
    | none => .error (.responseValidation "nutrition_score_explanation")
    | some nse =>
      match url with
      | some u =>
        if strLeads "http://" u || strLeads "https://" u then
          .ok { name := name, brand := brand, ingredients := ingredients,
                category := category, processed_score := processed_score,
                processed_score_explanation := pse,
                nutrition_score := nutrition_score,
                nutrition_score_explanation := nse,
                health_issues := health_issues, url := some u }
        else .error (.responseValidation "url")
      | none =>
        .ok { name := name, brand := brand, ingredients := ingredients,
              category := category, processed_score := processed_score,
              processed_score_explanation := pse,
              nutrition_score := nutrition_score,
              nutrition_score_explanation := nse,
              health_issues := health_issues, url := none }

/-- The oracle-call record of the url lookup for a given row. -/
def urlCallOf (row : Row) : OracleCall :=
  .productUrl row.description (pyOr row.brand_name row.brand_owner)

/-- Final phase of `search_products_by` (crud.py lines 120-163): build
`set_query` and `update_params`, submit the UPDATE when `set_query` is
non-empty (swallowing execute/commit failures), and construct the
response. -/
def enrichFinal (row : Row) (sb : StoreBehavior) (calls : List OracleCall)
    (processed_score : Int) (processed_score_explanation : Option String) (pPend : Bool)
    (nutrition_score : Int) (nutrition_score_explanation : Option String) (nPend : Bool)
    (health_issues : PotentialHealthIssues) (hPend : Bool)
    (url : Option String) : EnrichOutcome :=
  let uAdd := row.url.isNone && pyTruthyOptStr url
  let set_query := setQueryOf pPend nPend hPend uAdd
  let update : Option UpdateStmt :=
    if set_query = "" then none
    else some
      { query := "UPDATE products SET " ++ rstripCommaSpace set_query
          ++ " WHERE fdc_id = :fdc_id",
        params := updateParamsOf set_query row.fdc_id
          processed_score processed_score_explanation
          nutrition_score nutrition_score_explanation
          health_issues url }
  let rowAfter := match update with
    | none => row
    | some u => if sb.updateFails || sb.commitFails then row else applyUpdate row u
  { result := mkProductSearchResponse row.description
      (pyOr row.brand_name row.brand_owner)
      (splitCommaSemi (pyStrip row.ingredients)) row.branded_food_category
      processed_score processed_score_explanation
      nutrition_score nutrition_score_explanation
      health_issues url,
    calls := calls, update := update, rowAfter := rowAfter }

/-- Fourth field branch (crud.py lines 112-118): adopt a stored url, or
call `get_product_url`; an uncaught failure of that call escapes. -/
def enrichUrlStage (row : Row) (o : Oracles) (sb : StoreBehavior)
    (calls : List OracleCall)
    (ps : Int) (pse : Option String) (pPend : Bool)
    (ns : Int) (nse : Option String) (nPend : Bool)
    (hi : PotentialHealthIssues) (hPend : Bool) : EnrichOutcome :=
  match row.url with
  | some u =>
    enrichFinal row sb calls ps pse pPend ns nse nPend hi hPend (some u)
  | none =>
    match get_product_url row.description (pyOr row.brand_name row.brand_owner) o with
    | .error e =>
      { result := .error e, calls := calls ++ [urlCallOf row],
        update := none, rowAfter := row }
    | .ok url =>
      enrichFinal row sb (calls ++ [urlCallOf row]) ps pse pPend ns nse nPend hi hPend url

/-- Third field branch (crud.py lines 105-110): adopt stored health issues,
or call `get_health_issues`; an uncaught failure escapes. -/
def enrichHealthStage (row : Row) (o : Oracles) (sb : StoreBehavior)
    (calls : List OracleCall)
    (ps : Int) (pse : Option String) (pPend : Bool)
    (ns : Int) (nse : Option String) (nPend : Bool) : EnrichOutcome :=
  match row.health_issues with
  | some hi => enrichUrlStage row o sb calls ps pse pPend ns nse nPend hi false
  | none =>
    match get_health_issues row.ingredients o with
    | .error e =>
      { result := .error e, calls := calls ++ [.healthIssues row.ingredients],
        update := none, rowAfter := row }
    | .ok hi =>
      enrichUrlStage row o sb (calls ++ [.healthIssues row.ingredients])
        ps pse pPend ns nse nPend hi true

/-- Second field branch (crud.py lines 97-103): adopt the stored nutrition
score, or call `calculate_nutrition_score`; an uncaught failure escapes. -/
def enrichNutritionStage (row : Row) (o : Oracles) (sb : StoreBehavior)
    (calls : List OracleCall)
    (ps : Int) (pse : Option String) (pPend : Bool) : EnrichOutcome :=
  match row.nutrition_score with
  | some ns =>
    enrichHealthStage row o sb calls ps pse pPend ns row.nutrition_score_explanation false
  | none =>
    match calculate_nutrition_score row.nutrition_info o with
    | .error e =>
      { result := .error e, calls := calls ++ [.nutritionScore row.nutrition_info],
        update := none, rowAfter := row }
    | .ok (ns, nse) =>
      enrichHealthStage row o sb (calls ++ [.nutritionScore row.nutrition_info])
        ps pse pPend ns (some nse) true

/-- Body of `search_products_by` on a fetched row (crud.py lines 81-163),
starting with the first field branch (lines 89-95): adopt the stored
processed score, or call `calculate_processed_score`; an uncaught failure
escapes.  There is no surrounding try/except in the source (it is
commented out), so an escaped exception aborts the remaining branches,
the UPDATE, and the response. -/
def enrich_row (row : Row) (o : Oracles) (sb : StoreBehavior) : EnrichOutcome :=
  match row.processed_score with
  | some ps =>
    enrichNutritionStage row o sb [] ps row.processed_score_explanation false
  | none =>
    match calculate_processed_score row.ingredients o with
    | .error e =>
      { result := .error e, calls := [.processedScore row.ingredients],
        update := none, rowAfter := row }
    | .ok (ps, pse) =>
      enrichNutritionStage row o sb [.processedScore row.ingredients] ps (some pse) true

/-! ## Resolution router and endpoint (crud.py `search_products`, main.py) -/

/-- Store predicate chosen by `search_products` (crud.py lines 179-185).
The full-text predicate carries the transformed query text
`query.lower().replace(' ', '+')`. -/
inductive Condition
  | byFdcId (id : Int)
  | byGtin (upc : String)
  | byQuery (tsquery : String)
deriving DecidableEq, Repr

/-- Observable outcome of `search_products_by` / `search_products`:
`result` is the returned value or escaped exception (`ok none` is the
not-found return), `storeReads` counts executed SELECTs. -/
structure SearchOutcome where
  result : Except PyErr (Option ProductSearchResponse)
  storeReads : Nat
  calls : List OracleCall
  update : Option UpdateStmt
  rowAfter : Option Row
deriving Repr

/-- Function `search_products_by` of crud.py: execute the SELECT for the
given condition (the store returns its first matching row, modelled by
`db`), return None when no row matches, else run the enrichment body. -/
def search_products_by (condition : Condition) (db : Condition → Option Row)
    (o : Oracles) (sb : StoreBehavior) : SearchOutcome :=
  match db condition with
  | none =>
    { result := .ok none, storeReads := 1, calls := [], update := none, rowAfter := none }
  | some row =>
    let e := enrich_row row o sb
    { result := e.result.map some, storeReads := 1, calls := e.calls,
      update := e.update, rowAfter := some e.rowAfter }

/-- Function `search_products` of crud.py (lines 170-191): pick the first
truthy identifying field; when none is truthy, the local
`postgres_result` is never assigned and the trailing
`if postgres_result:` raises UnboundLocalError before any store access. -/
def search_products (req : ProductSearchRequest) (db : Condition → Option Row)
    (o : Oracles) (sb : StoreBehavior) : SearchOutcome :=
  if pyTruthyOptInt req.fdc_id then
    search_products_by (.byFdcId (req.fdc_id.getD 0)) db o sb
  else if pyTruthyOptStr req.gtin_upc then
    search_products_by (.byGtin (req.gtin_upc.getD "")) db o sb
  else if pyTruthyOptStr req.query then
    search_products_by
      (.byQuery (((req.query.getD "").toLower).replace " " "+")) db o sb
  else
    { result := .error (.unboundLocal "postgres_result"), storeReads := 0,
      calls := [], update := none, rowAfter := none }

/-- Python `str(e)` for the embedded exceptions, used only for the
`"Simulated search error" in str(e)` test of main.py; the texts stand in
for the CPython/library messages, none of which contain that marker. -/
def pyErrStr : PyErr → String
  | .httpException status detail => toString status ++ ": " ++ detail
  | .responseValidation f => "1 validation error for ProductSearchResponse " ++ f
  | .unboundLocal v =>
      "cannot access local variable " ++ v
        ++ " where it is not associated with a value"
  | .oracleFailure _ .timeout => "Timeout while running agent"
  | .oracleFailure _ .malformedOutput => "Malformed structured output"
  | .oracleFailure _ .validationError => "1 validation error for agent response"

/-- The `except Exception` handler of `search_products_endpoint`
(main.py lines 73-78): every exception raised inside the try block,
including the HTTPExceptions raised there, is converted to a 500. -/
def endpointCatch (e : PyErr) : PyErr :=
  if substrIn "Simulated search error" (pyErrStr e) then
    .httpException 500 "Error during product search."
  else
    .httpException 500 "An internal server error occurred."

/-- Observable outcome of one call to the `/v1/search-products` handler. -/
structure EndpointOutcome where
  result : Except PyErr ProductSearchResponse
  storeReads : Nat
  calls : List OracleCall
  update : Option UpdateStmt
deriving Repr

/-- Function `search_products_endpoint` of main.py (lines 60-78): the
empty-request check raises HTTPException(400) inside the try block, a
None result raises HTTPException(404) inside the try block, and the
blanket `except Exception` turns every exception raised in the try block
into an HTTPException(500) that propagates to the framework. -/
def search_products_endpoint (req : ProductSearchRequest)
    (db : Condition → Option Row) (o : Oracles) (sb : StoreBehavior) :
    EndpointOutcome :=
  if req.fdc_id.isNone && req.gtin_upc.isNone && req.query.isNone then
    { result := .error (endpointCatch (.httpException 400 "Search query cannot be empty.")),
      storeReads := 0, calls := [], update := none }
  else
    let sp := search_products req db o sb
    match sp.result with
    | .error e =>
      { result := .error (endpointCatch e), storeReads := sp.storeReads,
        calls := sp.calls, update := sp.update }
    | .ok none =>
      { result := .error (endpointCatch (.httpException 404 "No products found.")),
        storeReads := sp.storeReads, calls := sp.calls, update := sp.update }
    | .ok (some r) =>
      { result := .ok r, storeReads := sp.storeReads,
        calls := sp.calls, update := sp.update }

/-! ## Concrete fixtures used by witnesses and counterexamples -/

/-- A store in which every UPDATE executes and commits. -/
def storeOk : StoreBehavior := { updateFails := false, commitFails := false }

/-- An empty structured health-issues payload. -/
def hiEmpty : PotentialHealthIssues := { potential_health_issues := [] }

/-- A non-empty structured health-issues payload. -/
def hiSugar : PotentialHealthIssues :=
  { potential_health_issues :=
      [{ ingredient := "sugar",
         issues := [{ issue := "glycemic spike", evidence := "review" }] }] }

/-- A fully enriched stored row (all four derived fields non-null). -/
def rowFull : Row :=
  { fdc_id := 42, description := "Choco Milk", brand_name := some "Acme",
    brand_owner := none, ingredients := "milk, sugar, cocoa",
    nutrition_info := "Total Sugars - 21G", branded_food_category := some "Dairy",
    processed_score := some 3, processed_score_explanation := some "Moderate",
    nutrition_score := some 2, nutrition_score_explanation := some "Low",
    health_issues := some hiSugar, url := some "https://example.com/choco-milk" }

/-- A freshly ingested row: raw fields populated, all derived fields NULL. -/
def rowAllNull : Row :=
  { rowFull with
    processed_score := none
    processed_score_explanation := none
    nutrition_score := none
    nutrition_score_explanation := none
    health_issues := none
    url := none }

/-- The fully enriched row except for a NULL processed score (and its
explanation). -/
def rowOnlyProcessedNull : Row :=
  { rowFull with
    processed_score := none
    processed_score_explanation := none }

/-- The fully enriched row except for a NULL nutrition score (and its
explanation). -/
def rowOnlyNutritionNull : Row :=
  { rowFull with
    nutrition_score := none
    nutrition_score_explanation := none }

/-- The fully enriched row except for NULL health issues. -/
def rowOnlyHealthNull : Row :=
  { rowFull with health_issues := none }

/-- The fully enriched row except for a NULL url. -/
def rowOnlyUrlNull : Row :=
  { rowFull with url := none }

/-- Oracles that all succeed with validated payloads. -/
def oraclesOk : Oracles :=
  { processedScore := .ok { score := 4, score_explanation := " Ultra-processed " },
    nutritionScore := .ok { score := 2, score_explanation := "Low value" },
    healthIssues := .ok hiEmpty,
    productUrl := .ok " https://example.com/found " }

/-- Oracles in which only the processed-score call fails (with a timeout)
while every other call succeeds. -/
def oraclesProcessedTimeout : Oracles :=
  { oraclesOk with processedScore := .error .timeout }

/-- Oracles in which only the health-issues call fails while the
processed-score call succeeds. -/
def oraclesHealthFails : Oracles :=
  { oraclesOk with healthIssues := .error .malformedOutput }

/-- Oracles in which the url lookup fails with a validation error. -/
def oraclesUrlValidationErr : Oracles :=
  { oraclesOk with productUrl := .error .validationError }

/-- Oracles in which the url lookup returns the literal sentinel text the
agent is instructed to produce when no URL is found. -/
def oraclesUrlSentinel : Oracles :=
  { oraclesOk with productUrl := .ok "No URL found" }

/-- A store lookup that finds `rowFull` for every predicate. -/
def dbAlwaysFull : Condition → Option Row := fun _ => some rowFull

/-- The empty inbound request (no identifying field set). -/
def reqEmpty : ProductSearchRequest :=
  { fdc_id := none, gtin_upc := none, query := none }

/-- An inbound request whose only set field is an empty-string barcode. -/
def reqEmptyGtin : ProductSearchRequest :=
  { fdc_id := none, gtin_upc := some "", query := none }

/-! ## Helper notions used by the theorem statements -/

/-- Columns belonging to the fields whose fragment entered `set_query`
(a score field contributes its explanation column as well). -/
def pendingCols (p n h u : Bool) : List String :=
  (if p then ["processed_score", "processed_score_explanation"] else [])
    ++ (if n then ["nutrition_score", "nutrition_score_explanation"] else [])
    ++ (if h then ["health_issues"] else [])
    ++ (if u then ["url"] else [])

/-- SET clause text covering exactly the given columns, each bound to the
parameter of the same name. -/
def setClause (cols : List String) : String :=
  String.intercalate ", " (cols.map (fun c => c ++ " = :" ++ c))

/-- Parameter list of the partial UPDATE, spelled by flags instead of by
substring tests on `set_query`. -/
def expectedParams (p n h u : Bool) (fdc_id : Int)
    (ps : Int) (pse : Option String) (ns : Int) (nse : Option String)
    (hi : PotentialHealthIssues) (url : Option String) :
    List (String × SqlValue) :=
  [("fdc_id", SqlValue.int fdc_id)]
    ++ (if p then [("processed_score", SqlValue.int ps),
                   ("processed_score_explanation", sqlOfOptStr pse)] else [])
    ++ (if n then [("nutrition_score", SqlValue.int ns),
                   ("nutrition_score_explanation", sqlOfOptStr nse)] else [])
    ++ (if h then [("health_issues", SqlValue.jsonb hi)] else [])
    ++ (if u then [("url", sqlOfOptStr url)] else [])

/-- Row state after the partial UPDATE patched the flagged fields. -/
def rowPatched (row : Row) (p n h u : Bool)
    (ps : Int) (pse : Option String) (ns : Int) (nse : Option String)
    (hi : PotentialHealthIssues) (url : Option String) : Row :=
  { row with
    processed_score := if p then some ps else row.processed_score
    processed_score_explanation := if p then pse else row.processed_score_explanation
    nutrition_score := if n then some ns else row.nutrition_score
    nutrition_score_explanation := if n then nse else row.nutrition_score_explanation
    health_issues := if h then some hi else row.health_issues
    url := if u then url else row.url }

/-- Value the url lookup would deliver for this row under these oracles
(None when the lookup raises), used to phrase which url write is added. -/
def urlLookupOf (row : Row) (o : Oracles) : Option String :=
  match get_product_url row.description (pyOr row.brand_name row.brand_owner) o with
  | .ok v => v
  | .error _ => none

/-- Adoption property of one invocation: every derived field that is
non-null in the stored row is adopted verbatim (it reappears unchanged in
the store and in any returned response) and its oracle is not called. -/
def adoptsStored (row : Row) (o : Oracles) (sb : StoreBehavior) : Prop :=
  (∀ v, row.processed_score = some v →
    (enrich_row row o sb).rowAfter.processed_score = some v ∧
    (enrich_row row o sb).rowAfter.processed_score_explanation
      = row.processed_score_explanation ∧
    (∀ resp, (enrich_row row o sb).result = .ok resp → resp.processed_score = v) ∧
    (∀ s, OracleCall.processedScore s ∉ (enrich_row row o sb).calls)) ∧
  (∀ v, row.nutrition_score = some v →
    (enrich_row row o sb).rowAfter.nutrition_score = some v ∧
    (enrich_row row o sb).rowAfter.nutrition_score_explanation
      = row.nutrition_score_explanation ∧
    (∀ resp, (enrich_row row o sb).result = .ok resp → resp.nutrition_score = v) ∧
    (∀ s, OracleCall.nutritionScore s ∉ (enrich_row row o sb).calls)) ∧
  (∀ v, row.health_issues = some v →
    (enrich_row row o sb).rowAfter.health_issues = some v ∧
    (∀ resp, (enrich_row row o sb).result = .ok resp → resp.health_issues = v) ∧
    (∀ s, OracleCall.healthIssues s ∉ (enrich_row row o sb).calls)) ∧
  (∀ v, row.url = some v →
    (enrich_row row o sb).rowAfter.url = some v ∧
    (∀ resp, (enrich_row row o sb).result = .ok resp → resp.url = some v) ∧
    (∀ nm br, OracleCall.productUrl nm br ∉ (enrich_row row o sb).calls))

/-- A store lookup that finds the freshly ingested row for every predicate. -/
def dbAllNull : Condition → Option Row := fun _ => some rowAllNull

/-- Tokenization as the specification words it: comma/semicolon split into
individually trimmed tokens. -/
def trimmedTokens (s : String) : List String :=
  (splitCommaSemi s).map pyStrip

/-! ## Lemmas: the substring tests on `set_query` coincide with the flags -/

theorem substrIn_p_setQuery (p n h u : Bool) :
    substrIn "processed_score" (setQueryOf p n h u) = p := by
  cases p <;> cases n <;> cases h <;> cases u <;> decide

theorem substrIn_n_setQuery (p n h u : Bool) :
    substrIn "nutrition_score" (setQueryOf p n h u) = n := by
  cases p <;> cases n <;> cases h <;> cases u <;> decide

theorem substrIn_h_setQuery (p n h u : Bool) :
    substrIn "health_issues" (setQueryOf p n h u) = h := by
  cases p <;> cases n <;> cases h <;> cases u <;> decide

theorem substrIn_u_setQuery (p n h u : Bool) :
    substrIn "url" (setQueryOf p n h u) = u := by
  cases p <;> cases n <;> cases h <;> cases u <;> decide

theorem setQueryOf_eq_empty (p n h u : Bool) :
    setQueryOf p n h u = "" ↔ p = false ∧ n = false ∧ h = false ∧ u = false := by
  cases p <;> cases n <;> cases h <;> cases u <;> decide

theorem rstrip_setQueryOf (p n h u : Bool) :
    rstripCommaSpace (setQueryOf p n h u) = setClause (pendingCols p n h u) := by
  cases p <;> cases n <;> cases h <;> cases u <;> decide

theorem updateParamsOf_setQueryOf (p n h u : Bool) (fdc ps : Int)
    (pse : Option String) (ns : Int) (nse : Option String)
    (hi : PotentialHealthIssues) (url : Option String) :
    updateParamsOf (setQueryOf p n h u) fdc ps pse ns nse hi url
      = expectedParams p n h u fdc ps pse ns nse hi url := by
  simp only [updateParamsOf, expectedParams, substrIn_p_setQuery,
    substrIn_n_setQuery, substrIn_h_setQuery, substrIn_u_setQuery]

theorem applyUpdate_expectedParams (row : Row) (q : String) (p n h u : Bool)
    (ps : Int) (pse : Option String) (ns : Int) (nse : Option String)
    (hi : PotentialHealthIssues) (url : Option String) :
    applyUpdate row
        { query := q,
          params := expectedParams p n h u row.fdc_id ps pse ns nse hi url }
      = rowPatched row p n h u ps pse ns nse hi url := by
  cases p <;> cases n <;> cases h <;> cases u <;>
    rcases pse with _ | pse <;> rcases nse with _ | nse <;> rcases url with _ | url <;>
    simp [applyUpdate, lookupParam, expectedParams, rowPatched, sqlOfOptStr, List.find?]

theorem enrichFinal_eq (row : Row) (sb : StoreBehavior) (calls : List OracleCall)
    (ps : Int) (pse : Option String) (p : Bool)
    (ns : Int) (nse : Option String) (n : Bool)
    (hi : PotentialHealthIssues) (h : Bool) (url : Option String) :
    enrichFinal row sb calls ps pse p ns nse n hi h url =
      { result := mkProductSearchResponse row.description
          (pyOr row.brand_name row.brand_owner)
          (splitCommaSemi (pyStrip row.ingredients)) row.branded_food_category
          ps pse ns nse hi url,
        calls := calls,
        update := if p || n || h || (row.url.isNone && pyTruthyOptStr url) then
            some { query := "UPDATE products SET "
                     ++ setClause (pendingCols p n h (row.url.isNone && pyTruthyOptStr url))
                     ++ " WHERE fdc_id = :fdc_id",
                   params := expectedParams p n h (row.url.isNone && pyTruthyOptStr url)
                     row.fdc_id ps pse ns nse hi url }
          else none,
        rowAfter := if (p || n || h || (row.url.isNone && pyTruthyOptStr url))
              && !(sb.updateFails || sb.commitFails) then
            rowPatched row p n h (row.url.isNone && pyTruthyOptStr url) ps pse ns nse hi url
          else row } := by
  simp only [enrichFinal]
  generalize (row.url.isNone && pyTruthyOptStr url) = uA
  cases p <;> cases n <;> cases h <;> cases uA <;>
    cases hsb : sb.updateFails || sb.commitFails <;>
    simp [setQueryOf_eq_empty, rstrip_setQueryOf, updateParamsOf_setQueryOf,
      applyUpdate_expectedParams, hsb]

theorem mkResponse_ok_facts {name : String} {brand : Option String}
    {ingredients : List String} {category : Option String}
    {ps : Int} {pse : Option String} {ns : Int} {nse : Option String}
    {hi : PotentialHealthIssues} {url : Option String}
    {resp : ProductSearchResponse}
    (hk : mkProductSearchResponse name brand ingredients category
            ps pse ns nse hi url = .ok resp) :
    resp.name = name ∧ resp.brand = brand ∧ resp.ingredients = ingredients ∧
    resp.category = category ∧ resp.processed_score = ps ∧
    pse = some resp.processed_score_explanation ∧
    resp.nutrition_score = ns ∧ nse = some resp.nutrition_score_explanation ∧
    resp.health_issues = hi ∧ resp.url = url := by
  rcases pse with _ | pse <;> rcases nse with _ | nse <;> rcases url with _ | url <;>
    simp only [mkProductSearchResponse] at hk <;> split_ifs at hk <;>
    injection hk with h <;> subst h <;> simp

/-! ## Lemmas: one rewrite per branch of each pipeline stage -/

theorem enrich_row_adopt {row : Row} (o : Oracles) (sb : StoreBehavior)
    {ps : Int} (hv : row.processed_score = some ps) :
    enrich_row row o sb
      = enrichNutritionStage row o sb [] ps row.processed_score_explanation false := by
  simp only [enrich_row, hv]

theorem enrich_row_pending_ok {row : Row} {o : Oracles} (sb : StoreBehavior)
    {r : DieticanAgentResponse}
    (hv : row.processed_score = none) (ho : o.processedScore = .ok r) :
    enrich_row row o sb
      = enrichNutritionStage row o sb [.processedScore row.ingredients]
          r.score (some (pyStrip r.score_explanation)) true := by
  simp only [enrich_row, hv, calculate_processed_score, ho]

theorem enrich_row_pending_err {row : Row} {o : Oracles} (sb : StoreBehavior)
    {e : OracleErr}
    (hv : row.processed_score = none) (ho : o.processedScore = .error e) :
    enrich_row row o sb
      = { result := .error (.oracleFailure .processedScore e),
          calls := [.processedScore row.ingredients],
          update := none, rowAfter := row } := by
  simp only [enrich_row, hv, calculate_processed_score, ho]

theorem nutritionStage_adopt {row : Row} (o : Oracles) (sb : StoreBehavior)
    (calls : List OracleCall) (ps : Int) (pse : Option String) (p : Bool)
    {ns : Int} (hv : row.nutrition_score = some ns) :
    enrichNutritionStage row o sb calls ps pse p
      = enrichHealthStage row o sb calls ps pse p
          ns row.nutrition_score_explanation false := by
  simp only [enrichNutritionStage, hv]

theorem nutritionStage_pending_ok {row : Row} {o : Oracles} (sb : StoreBehavior)
    (calls : List OracleCall) (ps : Int) (pse : Option String) (p : Bool)
    {r : DieticanAgentResponse}
    (hv : row.nutrition_score = none) (ho : o.nutritionScore = .ok r) :
    enrichNutritionStage row o sb calls ps pse p
      = enrichHealthStage row o sb (calls ++ [.nutritionScore row.nutrition_info])
          ps pse p r.score (some (pyStrip r.score_explanation)) true := by
  simp only [enrichNutritionStage, hv, calculate_nutrition_score, ho]

theorem nutritionStage_pending_err {row : Row} {o : Oracles} (sb : StoreBehavior)
    (calls : List OracleCall) (ps : Int) (pse : Option String) (p : Bool)
    {e : OracleErr}
    (hv : row.nutrition_score = none) (ho : o.nutritionScore = .error e) :
    enrichNutritionStage row o sb calls ps pse p
      = { result := .error (.oracleFailure .nutritionScore e),
          calls := calls ++ [.nutritionScore row.nutrition_info],
          update := none, rowAfter := row } := by
  simp only [enrichNutritionStage, hv, calculate_nutrition_score, ho]

theorem healthStage_adopt {row : Row} (o : Oracles) (sb : StoreBehavior)
    (calls : List OracleCall) (ps : Int) (pse : Option String) (p : Bool)
    (ns : Int) (nse : Option String) (n : Bool)
    {hi : PotentialHealthIssues} (hv : row.health_issues = some hi) :
    enrichHealthStage row o sb calls ps pse p ns nse n
      = enrichUrlStage row o sb calls ps pse p ns nse n hi false := by
  simp only [enrichHealthStage, hv]

theorem healthStage_pending_ok {row : Row} {o : Oracles} (sb : StoreBehavior)
    (calls : List OracleCall) (ps : Int) (pse : Option String) (p : Bool)
    (ns : Int) (nse : Option String) (n : Bool)
    {hi : PotentialHealthIssues}
    (hv : row.health_issues = none) (ho : o.healthIssues = .ok hi) :
    enrichHealthStage row o sb calls ps pse p ns nse n
      = enrichUrlStage row o sb (calls ++ [.healthIssues row.ingredients])
          ps pse p ns nse n hi true := by
  simp only [enrichHealthStage, hv, get_health_issues, ho]

theorem healthStage_pending_err {row : Row} {o : Oracles} (sb : StoreBehavior)
    (calls : List OracleCall) (ps : Int) (pse : Option String) (p : Bool)
    (ns : Int) (nse : Option String) (n : Bool) {e : OracleErr}
    (hv : row.health_issues = none) (ho : o.healthIssues = .error e) :
    enrichHealthStage row o sb calls ps pse p ns nse n
      = { result := .error (.oracleFailure .healthIssues e),
          calls := calls ++ [.healthIssues row.ingredients],
          update := none, rowAfter := row } := by
  simp only [enrichHealthStage, hv, get_health_issues, ho]

theorem urlStage_adopt {row : Row} (o : Oracles) (sb : StoreBehavior)
    (calls : List OracleCall) (ps : Int) (pse : Option String) (p : Bool)
    (ns : Int) (nse : Option String) (n : Bool)
    (hi : PotentialHealthIssues) (h : Bool)
    {u : String} (hv : row.url = some u) :
    enrichUrlStage row o sb calls ps pse p ns nse n hi h
      = enrichFinal row sb calls ps pse p ns nse n hi h (some u) := by
  simp only [enrichUrlStage, hv]

theorem urlStage_pending_ok {row : Row} {o : Oracles} (sb : StoreBehavior)
    (calls : List OracleCall) (ps : Int) (pse : Option String) (p : Bool)
    (ns : Int) (nse : Option String) (n : Bool)
    (hi : PotentialHealthIssues) (h : Bool) {content : String}
    (hv : row.url = none) (ho : o.productUrl = .ok content) :
    enrichUrlStage row o sb calls ps pse p ns nse n hi h
      = enrichFinal row sb (calls ++ [urlCallOf row]) ps pse p ns nse n hi h
          (some (pyStrip content)) := by
  simp only [enrichUrlStage, hv, get_product_url, ho]

theorem urlStage_pending_validationErr {row : Row} {o : Oracles} (sb : StoreBehavior)
    (calls : List OracleCall) (ps : Int) (pse : Option String) (p : Bool)
    (ns : Int) (nse : Option String) (n : Bool)
    (hi : PotentialHealthIssues) (h : Bool)
    (hv : row.url = none) (ho : o.productUrl = .error .validationError) :
    enrichUrlStage row o sb calls ps pse p ns nse n hi h
      = enrichFinal row sb (calls ++ [urlCallOf row]) ps pse p ns nse n hi h none := by
  simp only [enrichUrlStage, hv, get_product_url, ho]

theorem urlStage_pending_err {row : Row} {o : Oracles} (sb : StoreBehavior)
    (calls : List OracleCall) (ps : Int) (pse : Option String) (p : Bool)
    (ns : Int) (nse : Option String) (n : Bool)
    (hi : PotentialHealthIssues) (h : Bool) {e : OracleErr}
    (hv : row.url = none) (ho : o.productUrl = .error e)
    (hne : e ≠ .validationError) :
    enrichUrlStage row o sb calls ps pse p ns nse n hi h
      = { result := .error (.oracleFailure .productUrl e),
          calls := calls ++ [urlCallOf row],
          update := none, rowAfter := row } := by
  cases e <;> simp only [enrichUrlStage, hv, get_product_url, ho] <;> simp_all

/-! ## Claim C3 -/

/-- C3: for every product row in which all four derived fields are already
non-null, enrichment invokes zero oracle calls, issues zero store writes,
leaves the stored row unchanged, and returns exactly the stored values
(pure read-through). -/
theorem C3_all_filled_pure_read_through (row : Row) (o : Oracles) (sb : StoreBehavior)
    (ps ns : Int) (hi : PotentialHealthIssues) (u : String)
    (hp : row.processed_score = some ps) (hn : row.nutrition_score = some ns)
    (hh : row.health_issues = some hi) (hu : row.url = some u) :
    (enrich_row row o sb).calls = [] ∧
    (enrich_row row o sb).update = none ∧
    (enrich_row row o sb).rowAfter = row ∧
    (enrich_row row o sb).result
      = mkProductSearchResponse row.description (pyOr row.brand_name row.brand_owner)
          (splitCommaSemi (pyStrip row.ingredients)) row.branded_food_category
          ps row.processed_score_explanation ns row.nutrition_score_explanation
          hi (some u) := by
  rw [enrich_row_adopt o sb hp, nutritionStage_adopt o sb _ _ _ _ hn,
    healthStage_adopt o sb _ _ _ _ _ _ _ hh, urlStage_adopt o sb _ _ _ _ _ _ _ _ _ hu,
    enrichFinal_eq]
  simp [hu]

/-- Witness for C3 at the fully enriched fixture row. -/
theorem C3_all_filled_pure_read_through_witness :
    (enrich_row rowFull oraclesOk storeOk).calls = [] ∧
    (enrich_row rowFull oraclesOk storeOk).update = none ∧
    (enrich_row rowFull oraclesOk storeOk).rowAfter = rowFull ∧
    (enrich_row rowFull oraclesOk storeOk).result
      = mkProductSearchResponse rowFull.description
          (pyOr rowFull.brand_name rowFull.brand_owner)
          (splitCommaSemi (pyStrip rowFull.ingredients)) rowFull.branded_food_category
          3 rowFull.processed_score_explanation 2 rowFull.nutrition_score_explanation
          hiSugar (some "https://example.com/choco-milk") :=
  C3_all_filled_pure_read_through rowFull oraclesOk storeOk 3 2 hiSugar
    "https://example.com/choco-milk" rfl rfl rfl rfl

set_option maxHeartbeats 1000000 in
theorem adoptsStored_all (row : Row) (o : Oracles) (sb : StoreBehavior) :
    adoptsStored row o sb := by
  unfold adoptsStored
  refine ⟨fun v hv => ?_, fun v hv => ?_, fun v hv => ?_, fun v hv => ?_⟩
  · rw [enrich_row_adopt o sb hv]
    rcases hn : row.nutrition_score with _ | ns <;>
      rcases hno : o.nutritionScore with en | rn <;>
      rcases hh : row.health_issues with _ | hi <;>
      rcases hho : o.healthIssues with eh | rh <;>
      rcases hu : row.url with _ | u <;>
      rcases huo : o.productUrl with eu | ru <;>
      (try cases eu) <;>
      simp only [enrichNutritionStage, enrichHealthStage, enrichUrlStage,
        calculate_nutrition_score, get_health_issues, get_product_url,
        hn, hno, hh, hho, hu, huo, enrichFinal_eq] <;>
      refine ⟨(by (repeat' split) <;> simp [rowPatched, hv]),
        (by (repeat' split) <;> simp [rowPatched, hv]), fun resp hresp => ?_, (by simp [urlCallOf])⟩ <;>
      first
        | exact absurd hresp (by simp)
        | exact (mkResponse_ok_facts hresp).2.2.2.2.1
  · rcases hp : row.processed_score with _ | ps <;>
      rcases hpo : o.processedScore with ep | rp <;>
      [rw [enrich_row_pending_err sb hp hpo];
       rw [enrich_row_pending_ok sb hp hpo];
       rw [enrich_row_adopt o sb hp];
       rw [enrich_row_adopt o sb hp]] <;>
      (try exact ⟨by simp [hv], by simp [hv], by simp, by simp⟩) <;>
      rw [nutritionStage_adopt o sb _ _ _ _ hv] <;>
      rcases hh : row.health_issues with _ | hi <;>
      rcases hho : o.healthIssues with eh | rh <;>
      rcases hu : row.url with _ | u <;>
      rcases huo : o.productUrl with eu | ru <;>
      (try cases eu) <;>
      simp only [enrichHealthStage, enrichUrlStage, get_health_issues,
        get_product_url, hh, hho, hu, huo, enrichFinal_eq] <;>
      refine ⟨(by (repeat' split) <;> simp [rowPatched, hv]),
        (by (repeat' split) <;> simp [rowPatched, hv]), fun resp hresp => ?_, (by simp [urlCallOf])⟩ <;>
      first
        | exact absurd hresp (by simp)
        | exact (mkResponse_ok_facts hresp).2.2.2.2.2.2.1
  · rcases hp : row.processed_score with _ | ps <;>
      rcases hpo : o.processedScore with ep | rp <;>
      [rw [enrich_row_pending_err sb hp hpo];
       rw [enrich_row_pending_ok sb hp hpo];
       rw [enrich_row_adopt o sb hp];
       rw [enrich_row_adopt o sb hp]] <;>
      (try exact ⟨by simp [hv], by simp, by simp⟩) <;>
      rcases hn : row.nutrition_score with _ | ns <;>
      rcases hno : o.nutritionScore with en | rn <;>
      (first
        | (rw [nutritionStage_pending_err sb _ _ _ _ hn hno];
           exact ⟨by simp [hv], by simp, by simp⟩)
        | rw [nutritionStage_pending_ok sb _ _ _ _ hn hno]
        | rw [nutritionStage_adopt o sb _ _ _ _ hn]) <;>
      rw [healthStage_adopt o sb _ _ _ _ _ _ _ hv] <;>
      rcases hu : row.url with _ | u <;>
      rcases huo : o.productUrl with eu | ru <;>
      (try cases eu) <;>
      simp only [enrichUrlStage, get_product_url, hu, huo, enrichFinal_eq] <;>
      refine ⟨(by (repeat' split) <;> simp [rowPatched, hv]), fun resp hresp => ?_, (by simp [urlCallOf])⟩ <;>
      first
        | exact absurd hresp (by simp)
        | exact (mkResponse_ok_facts hresp).2.2.2.2.2.2.2.2.1
  · rcases hp : row.processed_score with _ | ps <;>
      rcases hpo : o.processedScore with ep | rp <;>
      [rw [enrich_row_pending_err sb hp hpo];
       rw [enrich_row_pending_ok sb hp hpo];
       rw [enrich_row_adopt o sb hp];
       rw [enrich_row_adopt o sb hp]] <;>
      (try exact ⟨by simp [hv], by simp, by simp⟩) <;>
      rcases hn : row.nutrition_score with _ | ns <;>
      rcases hno : o.nutritionScore with en | rn <;>
      (first
        | (rw [nutritionStage_pending_err sb _ _ _ _ hn hno];
           exact ⟨by simp [hv], by simp, by simp⟩)
        | rw [nutritionStage_pending_ok sb _ _ _ _ hn hno]
        | rw [nutritionStage_adopt o sb _ _ _ _ hn]) <;>
      rcases hh : row.health_issues with _ | hi <;>
      rcases hho : o.healthIssues with eh | rh <;>
      (first
        | (rw [healthStage_pending_err sb _ _ _ _ _ _ _ hh hho];
           exact ⟨by simp [hv], by simp, by simp⟩)
        | rw [healthStage_pending_ok sb _ _ _ _ _ _ _ hh hho]
        | rw [healthStage_adopt o sb _ _ _ _ _ _ _ hh]) <;>
      rw [urlStage_adopt o sb _ _ _ _ _ _ _ _ _ hv] <;>
      simp only [enrichFinal_eq] <;>
      refine ⟨(by (repeat' split) <;> simp [rowPatched, hv]),
        fun resp hresp => ?_, (by simp [urlCallOf])⟩ <;>
      first
        | exact absurd hresp (by simp)
        | exact (mkResponse_ok_facts hresp).2.2.2.2.2.2.2.2.2

/-! ## Claim C2 -/

/-- C2: fill-once invariant: every derived field that is non-null in the
stored row is adopted verbatim — never recomputed (its oracle is not
called) and never overwritten (it survives in the stored row and is
returned unchanged); consequently a second enrichment run on the row
produced by a first run leaves every then-non-null field unchanged. -/
theorem C2_fill_once_idempotent :
    (∀ row o sb, adoptsStored row o sb) ∧
    (∀ row o₁ sb₁ o₂ sb₂,
      adoptsStored ((enrich_row row o₁ sb₁).rowAfter) o₂ sb₂) :=
  ⟨fun row o sb => adoptsStored_all row o sb,
   fun _ _ _ o₂ sb₂ => adoptsStored_all _ o₂ sb₂⟩

/-- Witness for C2: a stored processed score survives one run, and a
nutrition score stored before a first run is still intact in the store
after a second run. -/
theorem C2_fill_once_idempotent_witness :
    (enrich_row rowFull oraclesOk storeOk).rowAfter.processed_score = some 3 ∧
    (enrich_row (enrich_row rowOnlyProcessedNull oraclesOk storeOk).rowAfter
        oraclesOk storeOk).rowAfter.nutrition_score = some 2 :=
  ⟨((C2_fill_once_idempotent.1 rowFull oraclesOk storeOk).1 3 rfl).1,
   ((C2_fill_once_idempotent.2 rowOnlyProcessedNull oraclesOk storeOk
       oraclesOk storeOk).2.1 2 rfl).1⟩

/-! ## Claim C5 -/

theorem enrichFinal_sb (row : Row) (sb : StoreBehavior) (calls : List OracleCall)
    (ps : Int) (pse : Option String) (p : Bool)
    (ns : Int) (nse : Option String) (n : Bool)
    (hi : PotentialHealthIssues) (h : Bool) (url : Option String) :
    (enrichFinal row sb calls ps pse p ns nse n hi h url).result
        = (enrichFinal row storeOk calls ps pse p ns nse n hi h url).result ∧
    (enrichFinal row sb calls ps pse p ns nse n hi h url).calls
        = (enrichFinal row storeOk calls ps pse p ns nse n hi h url).calls ∧
    (enrichFinal row sb calls ps pse p ns nse n hi h url).update
        = (enrichFinal row storeOk calls ps pse p ns nse n hi h url).update ∧
    (sb.updateFails = true ∨ sb.commitFails = true →
      (enrichFinal row sb calls ps pse p ns nse n hi h url).rowAfter = row) := by
  simp only [enrichFinal_eq]
  refine ⟨trivial, trivial, trivial, fun hsb => ?_⟩
  rcases hsb with hsb | hsb <;> simp [hsb]

theorem enrichUrlStage_sb (row : Row) (o : Oracles) (sb : StoreBehavior)
    (calls : List OracleCall) (ps : Int) (pse : Option String) (p : Bool)
    (ns : Int) (nse : Option String) (n : Bool)
    (hi : PotentialHealthIssues) (h : Bool) :
    (enrichUrlStage row o sb calls ps pse p ns nse n hi h).result
        = (enrichUrlStage row o storeOk calls ps pse p ns nse n hi h).result ∧
    (enrichUrlStage row o sb calls ps pse p ns nse n hi h).calls
        = (enrichUrlStage row o storeOk calls ps pse p ns nse n hi h).calls ∧
    (enrichUrlStage row o sb calls ps pse p ns nse n hi h).update
        = (enrichUrlStage row o storeOk calls ps pse p ns nse n hi h).update ∧
    (sb.updateFails = true ∨ sb.commitFails = true →
      (enrichUrlStage row o sb calls ps pse p ns nse n hi h).rowAfter = row) := by
  rcases hu : row.url with _ | u
  · rcases huo : o.productUrl with eu | ru
    · cases eu <;> simp only [enrichUrlStage, get_product_url, hu, huo] <;>
        first
          | exact ⟨trivial, trivial, trivial, fun _ => trivial⟩
          | exact enrichFinal_sb _ _ _ _ _ _ _ _ _ _ _ _
    · simp only [enrichUrlStage, get_product_url, hu, huo]
      exact enrichFinal_sb _ _ _ _ _ _ _ _ _ _ _ _
  · simp only [enrichUrlStage, hu]
    exact enrichFinal_sb _ _ _ _ _ _ _ _ _ _ _ _

theorem enrichHealthStage_sb (row : Row) (o : Oracles) (sb : StoreBehavior)
    (calls : List OracleCall) (ps : Int) (pse : Option String) (p : Bool)
    (ns : Int) (nse : Option String) (n : Bool) :
    (enrichHealthStage row o sb calls ps pse p ns nse n).result
        = (enrichHealthStage row o storeOk calls ps pse p ns nse n).result ∧
    (enrichHealthStage row o sb calls ps pse p ns nse n).calls
        = (enrichHealthStage row o storeOk calls ps pse p ns nse n).calls ∧
    (enrichHealthStage row o sb calls ps pse p ns nse n).update
        = (enrichHealthStage row o storeOk calls ps pse p ns nse n).update ∧
    (sb.updateFails = true ∨ sb.commitFails = true →
      (enrichHealthStage row o sb calls ps pse p ns nse n).rowAfter = row) := by
  rcases hh : row.health_issues with _ | hi
  · rcases hho : o.healthIssues with eh | rh <;>
      simp only [enrichHealthStage, get_health_issues, hh, hho]
    · exact ⟨trivial, trivial, trivial, fun _ => trivial⟩
    · exact enrichUrlStage_sb _ _ _ _ _ _ _ _ _ _ _ _
  · simp only [enrichHealthStage, hh]
    exact enrichUrlStage_sb _ _ _ _ _ _ _ _ _ _ _ _

theorem enrichNutritionStage_sb (row : Row) (o : Oracles) (sb : StoreBehavior)
    (calls : List OracleCall) (ps : Int) (pse : Option String) (p : Bool) :
    (enrichNutritionStage row o sb calls ps pse p).result
        = (enrichNutritionStage row o storeOk calls ps pse p).result ∧
    (enrichNutritionStage row o sb calls ps pse p).calls
        = (enrichNutritionStage row o storeOk calls ps pse p).calls ∧
    (enrichNutritionStage row o sb calls ps pse p).update
        = (enrichNutritionStage row o storeOk calls ps pse p).update ∧
    (sb.updateFails = true ∨ sb.commitFails = true →
      (enrichNutritionStage row o sb calls ps pse p).rowAfter = row) := by
  rcases hn : row.nutrition_score with _ | ns
  · rcases hno : o.nutritionScore with en | rn <;>
      simp only [enrichNutritionStage, calculate_nutrition_score, hn, hno]
    · exact ⟨trivial, trivial, trivial, fun _ => trivial⟩
    · exact enrichHealthStage_sb _ _ _ _ _ _ _ _ _ _
  · simp only [enrichNutritionStage, hn]
    exact enrichHealthStage_sb _ _ _ _ _ _ _ _ _ _

/-- C5: a failing UPDATE or a failing commit is swallowed: the returned
value (and the oracle calls made, and the UPDATE submitted) are exactly
those of a run against a working store, and the only casualty is
durability — under a failing store the row is left unchanged. -/
theorem C5_persistence_failure_swallowed (row : Row) (o : Oracles) (sb : StoreBehavior) :
    (enrich_row row o sb).result = (enrich_row row o storeOk).result ∧
    (enrich_row row o sb).calls = (enrich_row row o storeOk).calls ∧
    (enrich_row row o sb).update = (enrich_row row o storeOk).update ∧
    (sb.updateFails = true ∨ sb.commitFails = true →
      (enrich_row row o sb).rowAfter = row) := by
  rcases hp : row.processed_score with _ | ps
  · rcases hpo : o.processedScore with ep | rp <;>
      simp only [enrich_row, calculate_processed_score, hp, hpo]
    · exact ⟨trivial, trivial, trivial, fun _ => trivial⟩
    · exact enrichNutritionStage_sb _ _ _ _ _ _ _
  · simp only [enrich_row, hp]
    exact enrichNutritionStage_sb _ _ _ _ _ _ _

/-- Witness for C5 at a store whose commit fails: the freshly computed
response equals the working-store response while the row stays intact. -/
theorem C5_persistence_failure_swallowed_witness :
    ((({ updateFails := false, commitFails := true } : StoreBehavior).updateFails = true ∨
      ({ updateFails := false, commitFails := true } : StoreBehavior).commitFails = true) →
      (enrich_row rowOnlyProcessedNull oraclesOk
        { updateFails := false, commitFails := true }).rowAfter = rowOnlyProcessedNull) ∧
    (enrich_row rowOnlyProcessedNull oraclesOk
        { updateFails := false, commitFails := true }).result
      = (enrich_row rowOnlyProcessedNull oraclesOk storeOk).result :=
  ⟨(C5_persistence_failure_swallowed rowOnlyProcessedNull oraclesOk
      { updateFails := false, commitFails := true }).2.2.2,
   (C5_persistence_failure_swallowed rowOnlyProcessedNull oraclesOk
      { updateFails := false, commitFails := true }).1⟩

/-! ## Claim C6 -/

theorem expectedParams_keys (p n h u : Bool) (fdc ps : Int) (pse : Option String)
    (ns : Int) (nse : Option String) (hi : PotentialHealthIssues) (url : Option String) :
    (expectedParams p n h u fdc ps pse ns nse hi url).map Prod.fst
      = "fdc_id" :: pendingCols p n h u := by
  cases p <;> cases n <;> cases h <;> cases u <;> simp [expectedParams, pendingCols]

theorem expectedParams_fdc (p n h u : Bool) (fdc ps : Int) (pse : Option String)
    (ns : Int) (nse : Option String) (hi : PotentialHealthIssues) (url : Option String) :
    lookupParam "fdc_id" (expectedParams p n h u fdc ps pse ns nse hi url)
      = some (SqlValue.int fdc) := by
  simp [lookupParam, expectedParams, List.find?]

/-- C6: whenever the enrichment issues a partial UPDATE, its SET clause
and its bound parameters cover exactly the columns of the fields that
were pending (stored NULL) and successfully computed in this invocation
(for the url field: pending and a truthy url delivered), keyed by the
product identifier; no other column appears. -/
theorem C6_update_covers_exactly_pending (row : Row) (o : Oracles) (sb : StoreBehavior)
    (u : UpdateStmt) (hu : (enrich_row row o sb).update = some u) :
    u.query = "UPDATE products SET "
        ++ setClause (pendingCols row.processed_score.isNone row.nutrition_score.isNone
            row.health_issues.isNone
            (row.url.isNone && pyTruthyOptStr (urlLookupOf row o)))
        ++ " WHERE fdc_id = :fdc_id" ∧
    u.params.map Prod.fst
      = "fdc_id" :: pendingCols row.processed_score.isNone row.nutrition_score.isNone
          row.health_issues.isNone
          (row.url.isNone && pyTruthyOptStr (urlLookupOf row o)) ∧
    lookupParam "fdc_id" u.params = some (SqlValue.int row.fdc_id) := by
  rcases hp : row.processed_score with _ | ps <;>
    rcases hpo : o.processedScore with ep | rp <;>
    (first
      | (rw [enrich_row_pending_err sb hp hpo] at hu; exact absurd hu (by simp))
      | rw [enrich_row_pending_ok sb hp hpo] at hu
      | rw [enrich_row_adopt o sb hp] at hu) <;>
    rcases hn : row.nutrition_score with _ | ns <;>
    rcases hno : o.nutritionScore with en | rn <;>
    (first
      | (rw [nutritionStage_pending_err sb _ _ _ _ hn hno] at hu; exact absurd hu (by simp))
      | rw [nutritionStage_pending_ok sb _ _ _ _ hn hno] at hu
      | rw [nutritionStage_adopt o sb _ _ _ _ hn] at hu) <;>
    rcases hh : row.health_issues with _ | hi <;>
    rcases hho : o.healthIssues with eh | rh <;>
    (first
      | (rw [healthStage_pending_err sb _ _ _ _ _ _ _ hh hho] at hu; exact absurd hu (by simp))
      | rw [healthStage_pending_ok sb _ _ _ _ _ _ _ hh hho] at hu
      | rw [healthStage_adopt o sb _ _ _ _ _ _ _ hh] at hu) <;>
    rcases hur : row.url with _ | uu <;>
    rcases huo : o.productUrl with eu | ru <;>
    (try cases eu) <;>
    (first
      | rw [urlStage_pending_validationErr sb _ _ _ _ _ _ _ _ _ hur huo] at hu
      | (rw [urlStage_pending_err sb _ _ _ _ _ _ _ _ _ hur huo (by decide)] at hu;
         exact absurd hu (by simp))
      | rw [urlStage_pending_ok sb _ _ _ _ _ _ _ _ _ hur huo] at hu
      | rw [urlStage_adopt o sb _ _ _ _ _ _ _ _ _ hur] at hu) <;>
    simp only [enrichFinal_eq] at hu <;>
    split at hu <;>
    first
      | exact Option.noConfusion hu
      | (injection hu with h2; subst h2;
         refine ⟨?_, ?_, ?_⟩ <;>
         simp [expectedParams_keys, expectedParams_fdc, hp, hn, hh, hur,
           urlLookupOf, get_product_url, huo])

/-- Witness for C6 at a row whose only missing field is the health
issues: the UPDATE covers exactly the health-issues column. -/
theorem C6_update_covers_exactly_pending_witness :
    (enrich_row rowOnlyHealthNull oraclesOk storeOk).update
      = some { query := "UPDATE products SET health_issues = :health_issues WHERE fdc_id = :fdc_id",
               params := [("fdc_id", SqlValue.int 42),
                          ("health_issues", SqlValue.jsonb hiEmpty)] } ∧
    ({ query := "UPDATE products SET health_issues = :health_issues WHERE fdc_id = :fdc_id",
       params := [("fdc_id", SqlValue.int 42),
                  ("health_issues", SqlValue.jsonb hiEmpty)] } : UpdateStmt).params.map Prod.fst
      = "fdc_id" :: pendingCols rowOnlyHealthNull.processed_score.isNone
          rowOnlyHealthNull.nutrition_score.isNone
          rowOnlyHealthNull.health_issues.isNone
          (rowOnlyHealthNull.url.isNone
            && pyTruthyOptStr (urlLookupOf rowOnlyHealthNull oraclesOk)) :=
  ⟨by decide,
   (C6_update_covers_exactly_pending rowOnlyHealthNull oraclesOk storeOk
      { query := "UPDATE products SET health_issues = :health_issues WHERE fdc_id = :fdc_id",
        params := [("fdc_id", SqlValue.int 42),
                   ("health_issues", SqlValue.jsonb hiEmpty)] } (by decide)).2.1⟩

/-! ## Claim C1 -/

/-- C1 counterexample: on a found row with all derived fields pending, a
timeout of the processed-score oracle call is NOT recovered at the call
site: `search_products_by` raises (its try/except is commented out in the
source), the sibling pending fields are never computed (only the one
failed call was made), nothing is persisted, and no result is returned. -/
theorem C1_counterexample :
    (search_products_by (.byFdcId 42) dbAllNull oraclesProcessedTimeout storeOk).result
      = .error (.oracleFailure .processedScore .timeout) ∧
    (search_products_by (.byFdcId 42) dbAllNull oraclesProcessedTimeout storeOk).calls
      = [.processedScore rowAllNull.ingredients] ∧
    (search_products_by (.byFdcId 42) dbAllNull oraclesProcessedTimeout storeOk).update
      = none ∧
    (search_products_by (.byFdcId 42) dbAllNull oraclesProcessedTimeout storeOk).rowAfter
      = some rowAllNull :=
  ⟨rfl, rfl, rfl, rfl⟩

/-- C1 amended: only the URL lookup recovers a failure at the call site,
and only a validation-error failure (the url is left null and excluded
from the write set, the rest of the result is intact); a failure of the
processed-score, nutrition-score or health-issues call — and a
non-validation failure of the URL call — escapes `search_products_by`
and aborts the remaining fields, the UPDATE, and the response. -/
theorem C1_amended_oracle_failure_handling :
    (∀ row o sb ps pse ns nse hi,
      row.processed_score = some ps → row.processed_score_explanation = some pse →
      row.nutrition_score = some ns → row.nutrition_score_explanation = some nse →
      row.health_issues = some hi → row.url = none →
      1 ≤ ps → ps ≤ 5 → 1 ≤ ns → ns ≤ 5 →
      o.productUrl = .error .validationError →
      ∃ resp, (enrich_row row o sb).result = .ok resp ∧ resp.url = none ∧
        (enrich_row row o sb).update = none) ∧
    (∀ row o sb e, row.processed_score = none → o.processedScore = .error e →
      (enrich_row row o sb).result = .error (.oracleFailure .processedScore e) ∧
      (enrich_row row o sb).update = none ∧ (enrich_row row o sb).rowAfter = row) ∧
    (∀ row o sb e ps, row.processed_score = some ps →
      row.nutrition_score = none → o.nutritionScore = .error e →
      (enrich_row row o sb).result = .error (.oracleFailure .nutritionScore e) ∧
      (enrich_row row o sb).update = none) ∧
    (∀ row o sb e ps ns, row.processed_score = some ps →
      row.nutrition_score = some ns →
      row.health_issues = none → o.healthIssues = .error e →
      (enrich_row row o sb).result = .error (.oracleFailure .healthIssues e) ∧
      (enrich_row row o sb).update = none) ∧
    (∀ row o sb e ps ns hi, row.processed_score = some ps →
      row.nutrition_score = some ns → row.health_issues = some hi →
      row.url = none → o.productUrl = .error e → e ≠ .validationError →
      (enrich_row row o sb).result = .error (.oracleFailure .productUrl e) ∧
      (enrich_row row o sb).update = none) := by
  refine ⟨?_, ?_, ?_, ?_, ?_⟩
  · intro row o sb ps pse ns nse hi hp hpe hn hne hh hu h1 h2 h3 h4 huo
    rw [enrich_row_adopt o sb hp, hpe, nutritionStage_adopt o sb _ _ _ _ hn, hne,
      healthStage_adopt o sb _ _ _ _ _ _ _ hh,
      urlStage_pending_validationErr sb _ _ _ _ _ _ _ _ _ hu huo]
    simp only [enrichFinal_eq]
    simp [mkProductSearchResponse, h1, h2, h3, h4, hu, pyTruthyOptStr]
  · intro row o sb e hp hpo
    rw [enrich_row_pending_err sb hp hpo]
    exact ⟨rfl, rfl, rfl⟩
  · intro row o sb e ps hp hn hno
    rw [enrich_row_adopt o sb hp, nutritionStage_pending_err sb _ _ _ _ hn hno]
    exact ⟨rfl, rfl⟩
  · intro row o sb e ps ns hp hn hh hho
    rw [enrich_row_adopt o sb hp, nutritionStage_adopt o sb _ _ _ _ hn,
      healthStage_pending_err sb _ _ _ _ _ _ _ hh hho]
    exact ⟨rfl, rfl⟩
  · intro row o sb e ps ns hi hp hn hh hu huo hne
    rw [enrich_row_adopt o sb hp, nutritionStage_adopt o sb _ _ _ _ hn,
      healthStage_adopt o sb _ _ _ _ _ _ _ hh,
      urlStage_pending_err sb _ _ _ _ _ _ _ _ _ hu huo hne]
    exact ⟨rfl, rfl⟩

/-- Witness for C1 amended: the url-validation failure is recovered on a
concrete row (no write issued), while a concrete processed-score timeout
escapes as an exception. -/
theorem C1_amended_oracle_failure_handling_witness :
    (enrich_row rowOnlyUrlNull oraclesUrlValidationErr storeOk).update = none ∧
    (enrich_row rowAllNull oraclesProcessedTimeout storeOk).result
      = .error (.oracleFailure .processedScore .timeout) := by
  obtain ⟨resp, hok, hurl, hupd⟩ :=
    C1_amended_oracle_failure_handling.1 rowOnlyUrlNull oraclesUrlValidationErr storeOk
      3 "Moderate" 2 "Low" hiSugar rfl rfl rfl rfl rfl rfl
      (by decide) (by decide) (by decide) (by decide) rfl
  exact ⟨hupd,
    (C1_amended_oracle_failure_handling.2.1 rowAllNull oraclesProcessedTimeout storeOk
      .timeout rfl rfl).1⟩

/-! ## Claim C4 -/

/-- C4 counterexample: on a row whose only null derived field is the
processed score, enrichment makes exactly one oracle call but the single
UPDATE sets TWO columns (`processed_score` and
`processed_score_explanation`), not a single column. -/
theorem C4_counterexample :
    (enrich_row rowOnlyProcessedNull oraclesOk storeOk).calls.length = 1 ∧
    (enrich_row rowOnlyProcessedNull oraclesOk storeOk).update
      = some { query := "UPDATE products SET processed_score = :processed_score, processed_score_explanation = :processed_score_explanation WHERE fdc_id = :fdc_id",
               params := [("fdc_id", SqlValue.int 42),
                          ("processed_score", SqlValue.int 4),
                          ("processed_score_explanation", SqlValue.str "Ultra-processed")] } :=
  ⟨rfl, rfl⟩

/-- C4 amended: on a row with exactly one derived field null, enrichment
makes exactly one oracle call and issues at most one UPDATE whose columns
are exactly those belonging to that field — both the score and its
explanation column for a score field, the single column for health issues,
and for the url field a single-column UPDATE exactly when the lookup
returned a truthy url (otherwise no UPDATE at all). -/
theorem C4_amended_single_null_field :
    (∀ row o sb r ns hi u, row.processed_score = none → o.processedScore = .ok r →
      row.nutrition_score = some ns → row.health_issues = some hi → row.url = some u →
      (enrich_row row o sb).calls = [.processedScore row.ingredients] ∧
      (enrich_row row o sb).update
        = some { query := "UPDATE products SET "
                   ++ setClause (pendingCols true false false false)
                   ++ " WHERE fdc_id = :fdc_id",
                 params := expectedParams true false false false row.fdc_id
                   r.score (some (pyStrip r.score_explanation))
                   ns row.nutrition_score_explanation hi (some u) }) ∧
    (∀ row o sb r ps hi u, row.nutrition_score = none → o.nutritionScore = .ok r →
      row.processed_score = some ps → row.health_issues = some hi → row.url = some u →
      (enrich_row row o sb).calls = [.nutritionScore row.nutrition_info] ∧
      (enrich_row row o sb).update
        = some { query := "UPDATE products SET "
                   ++ setClause (pendingCols false true false false)
                   ++ " WHERE fdc_id = :fdc_id",
                 params := expectedParams false true false false row.fdc_id
                   ps row.processed_score_explanation
                   r.score (some (pyStrip r.score_explanation)) hi (some u) }) ∧
    (∀ row o sb r ps ns u, row.health_issues = none → o.healthIssues = .ok r →
      row.processed_score = some ps → row.nutrition_score = some ns → row.url = some u →
      (enrich_row row o sb).calls = [.healthIssues row.ingredients] ∧
      (enrich_row row o sb).update
        = some { query := "UPDATE products SET "
                   ++ setClause (pendingCols false false true false)
                   ++ " WHERE fdc_id = :fdc_id",
                 params := expectedParams false false true false row.fdc_id
                   ps row.processed_score_explanation
                   ns row.nutrition_score_explanation r (some u) }) ∧
    (∀ row o sb content ps ns hi, row.url = none → o.productUrl = .ok content →
      row.processed_score = some ps → row.nutrition_score = some ns →
      row.health_issues = some hi →
      (enrich_row row o sb).calls = [urlCallOf row] ∧
      (pyStrip content ≠ "" →
        (enrich_row row o sb).update
          = some { query := "UPDATE products SET "
                     ++ setClause (pendingCols false false false true)
                     ++ " WHERE fdc_id = :fdc_id",
                   params := expectedParams false false false true row.fdc_id
                     ps row.processed_score_explanation
                     ns row.nutrition_score_explanation hi (some (pyStrip content)) }) ∧
      (pyStrip content = "" → (enrich_row row o sb).update = none)) ∧
    (∀ row o sb ps ns hi, row.url = none → o.productUrl = .error .validationError →
      row.processed_score = some ps → row.nutrition_score = some ns →
      row.health_issues = some hi →
      (enrich_row row o sb).calls = [urlCallOf row] ∧
      (enrich_row row o sb).update = none) := by
  refine ⟨?_, ?_, ?_, ?_, ?_⟩
  · intro row o sb r ns hi u hp hpo hn hh hu
    rw [enrich_row_pending_ok sb hp hpo, nutritionStage_adopt o sb _ _ _ _ hn,
      healthStage_adopt o sb _ _ _ _ _ _ _ hh,
      urlStage_adopt o sb _ _ _ _ _ _ _ _ _ hu]
    simp [enrichFinal_eq, hu]
  · intro row o sb r ps hi u hn hno hp hh hu
    rw [enrich_row_adopt o sb hp, nutritionStage_pending_ok sb _ _ _ _ hn hno,
      healthStage_adopt o sb _ _ _ _ _ _ _ hh,
      urlStage_adopt o sb _ _ _ _ _ _ _ _ _ hu]
    simp [enrichFinal_eq, hu]
  · intro row o sb r ps ns u hh hho hp hn hu
    rw [enrich_row_adopt o sb hp, nutritionStage_adopt o sb _ _ _ _ hn,
      healthStage_pending_ok sb _ _ _ _ _ _ _ hh hho,
      urlStage_adopt o sb _ _ _ _ _ _ _ _ _ hu]
    simp [enrichFinal_eq, hu]
  · intro row o sb content ps ns hi hu huo hp hn hh
    rw [enrich_row_adopt o sb hp, nutritionStage_adopt o sb _ _ _ _ hn,
      healthStage_adopt o sb _ _ _ _ _ _ _ hh,
      urlStage_pending_ok sb _ _ _ _ _ _ _ _ _ hu huo]
    refine ⟨by simp [enrichFinal_eq], fun htr => ?_, fun htr => ?_⟩
    · have hb : (pyStrip content != "") = true := by simpa [bne_iff_ne] using htr
      simp [enrichFinal_eq, hu, pyTruthyOptStr, hb]
    · have hb : (pyStrip content != "") = false := by simp [htr]
      simp [enrichFinal_eq, hu, pyTruthyOptStr, hb]
  · intro row o sb ps ns hi hu huo hp hn hh
    rw [enrich_row_adopt o sb hp, nutritionStage_adopt o sb _ _ _ _ hn,
      healthStage_adopt o sb _ _ _ _ _ _ _ hh,
      urlStage_pending_validationErr sb _ _ _ _ _ _ _ _ _ hu huo]
    simp [enrichFinal_eq, hu, pyTruthyOptStr]

/-- Witness for C4 amended at two concrete single-null rows. -/
theorem C4_amended_single_null_field_witness :
    (enrich_row rowOnlyProcessedNull oraclesOk storeOk).calls
      = [.processedScore rowOnlyProcessedNull.ingredients] ∧
    (enrich_row rowOnlyHealthNull oraclesOk storeOk).update
      = some { query := "UPDATE products SET "
                 ++ setClause (pendingCols false false true false)
                 ++ " WHERE fdc_id = :fdc_id",
               params := expectedParams false false true false rowOnlyHealthNull.fdc_id
                 3 rowOnlyHealthNull.processed_score_explanation
                 2 rowOnlyHealthNull.nutrition_score_explanation hiEmpty
                 (some "https://example.com/choco-milk") } :=
  ⟨(C4_amended_single_null_field.1 rowOnlyProcessedNull oraclesOk storeOk
      { score := 4, score_explanation := " Ultra-processed " } 2 hiSugar
      "https://example.com/choco-milk" rfl rfl rfl rfl rfl).1,
   (C4_amended_single_null_field.2.2.1 rowOnlyHealthNull oraclesOk storeOk
      hiEmpty 3 2 "https://example.com/choco-milk" rfl rfl rfl rfl rfl).2⟩

/-! ## Claim C7 -/

/-- C7 code evaluation: for the empty request (and for a request whose
only set field is an empty barcode) no store read, no oracle call and no
write happens — but the client receives HTTP 500 "An internal server
error occurred.", not an invalid-request (400) rejection: the
HTTPException(400) raised inside the try block is swallowed by the
endpoint's blanket `except Exception` and re-raised as a 500. -/
theorem C7_code_eval :
    (search_products_endpoint reqEmpty dbAlwaysFull oraclesOk storeOk).result
      = .error (.httpException 500 "An internal server error occurred.") ∧
    (search_products_endpoint reqEmpty dbAlwaysFull oraclesOk storeOk).storeReads = 0 ∧
    (search_products_endpoint reqEmpty dbAlwaysFull oraclesOk storeOk).calls = [] ∧
    (search_products_endpoint reqEmpty dbAlwaysFull oraclesOk storeOk).update = none ∧
    (search_products_endpoint reqEmptyGtin dbAlwaysFull oraclesOk storeOk).result
      = .error (.httpException 500 "An internal server error occurred.") ∧
    (search_products_endpoint reqEmptyGtin dbAlwaysFull oraclesOk storeOk).storeReads = 0 ∧
    (search_products_endpoint reqEmptyGtin dbAlwaysFull oraclesOk storeOk).calls = [] :=
  ⟨rfl, rfl, rfl, rfl, rfl, rfl, rfl⟩

/-! ## Claim C8 -/

/-- C8 code evaluation: when the URL oracle returns the literal
"No URL found" sentinel on a row with a NULL url, the sentinel is NOT
normalized: it is written to the url column of the products table
(UPDATE issued and committed), and constructing the response then raises
a url validation error, so the call returns no result at all. -/
theorem C8_code_eval :
    (enrich_row rowOnlyUrlNull oraclesUrlSentinel storeOk).update
      = some { query := "UPDATE products SET url = :url WHERE fdc_id = :fdc_id",
               params := [("fdc_id", SqlValue.int 42),
                          ("url", SqlValue.str "No URL found")] } ∧
    (enrich_row rowOnlyUrlNull oraclesUrlSentinel storeOk).rowAfter.url
      = some "No URL found" ∧
    (enrich_row rowOnlyUrlNull oraclesUrlSentinel storeOk).result
      = .error (.responseValidation "url") :=
  ⟨rfl, rfl, rfl⟩

/-! ## Claim C9 -/

/-- C9 counterexample: the returned ingredients are NOT individually
trimmed tokens: for stored text "milk, sugar, cocoa" the response carries
the tokens with their leading spaces intact. -/
theorem C9_counterexample :
    (enrich_row rowFull oraclesOk storeOk).result
      = .ok { name := "Choco Milk", brand := some "Acme",
              ingredients := ["milk", " sugar", " cocoa"], category := some "Dairy",
              processed_score := 3, processed_score_explanation := "Moderate",
              nutrition_score := 2, nutrition_score_explanation := "Low",
              health_issues := hiSugar, url := some "https://example.com/choco-milk" } ∧
    trimmedTokens rowFull.ingredients = ["milk", "sugar", "cocoa"] ∧
    (["milk", " sugar", " cocoa"] : List String) ≠ trimmedTokens rowFull.ingredients :=
  ⟨rfl, rfl, by decide⟩

/-- C9 amended: the response's ingredients field is the raw text stripped
as a whole and split on every comma or semicolon — the individual tokens
keep their surrounding whitespace — while every oracle call receives the
raw untokenized ingredient or nutrient field text (or name and brand for
the url lookup). -/
theorem C9_amended_split_untrimmed (row : Row) (o : Oracles) (sb : StoreBehavior) :
    (∀ resp, (enrich_row row o sb).result = .ok resp →
      resp.ingredients = splitCommaSemi (pyStrip row.ingredients)) ∧
    (∀ c ∈ (enrich_row row o sb).calls,
      c = .processedScore row.ingredients ∨ c = .nutritionScore row.nutrition_info ∨
      c = .healthIssues row.ingredients ∨
      c = .productUrl row.description (pyOr row.brand_name row.brand_owner)) := by
  rcases hp : row.processed_score with _ | ps <;>
    rcases hpo : o.processedScore with ep | rp <;>
    (first
      | (rw [enrich_row_pending_err sb hp hpo];
         exact ⟨fun resp hresp => absurd hresp (by simp), by simp⟩)
      | rw [enrich_row_pending_ok sb hp hpo]
      | rw [enrich_row_adopt o sb hp]) <;>
    rcases hn : row.nutrition_score with _ | ns <;>
    rcases hno : o.nutritionScore with en | rn <;>
    (first
      | (rw [nutritionStage_pending_err sb _ _ _ _ hn hno];
         exact ⟨fun resp hresp => absurd hresp (by simp), by simp⟩)
      | rw [nutritionStage_pending_ok sb _ _ _ _ hn hno]
      | rw [nutritionStage_adopt o sb _ _ _ _ hn]) <;>
    rcases hh : row.health_issues with _ | hi <;>
    rcases hho : o.healthIssues with eh | rh <;>
    (first
      | (rw [healthStage_pending_err sb _ _ _ _ _ _ _ hh hho];
         exact ⟨fun resp hresp => absurd hresp (by simp), by simp⟩)
      | rw [healthStage_pending_ok sb _ _ _ _ _ _ _ hh hho]
      | rw [healthStage_adopt o sb _ _ _ _ _ _ _ hh]) <;>
    rcases hur : row.url with _ | uu <;>
    rcases huo : o.productUrl with eu | ru <;>
    (try cases eu) <;>
    (first
      | rw [urlStage_pending_validationErr sb _ _ _ _ _ _ _ _ _ hur huo]
      | (rw [urlStage_pending_err sb _ _ _ _ _ _ _ _ _ hur huo (by decide)];
         exact ⟨fun resp hresp => absurd hresp (by simp), by simp [urlCallOf]⟩)
      | rw [urlStage_pending_ok sb _ _ _ _ _ _ _ _ _ hur huo]
      | rw [urlStage_adopt o sb _ _ _ _ _ _ _ _ _ hur]) <;>
    simp only [enrichFinal_eq] <;>
    exact ⟨fun resp hresp => (mkResponse_ok_facts hresp).2.2.1, by simp [urlCallOf]⟩

/-- Witness for C9 amended: the tokenization of the fixture row, and the
disjunction for the processed-score call of a fully pending row. -/
theorem C9_amended_split_untrimmed_witness :
    (["milk", " sugar", " cocoa"] : List String)
      = splitCommaSemi (pyStrip rowFull.ingredients) ∧
    (OracleCall.processedScore "milk, sugar, cocoa"
        = .processedScore rowAllNull.ingredients ∨
      OracleCall.processedScore "milk, sugar, cocoa"
        = .nutritionScore rowAllNull.nutrition_info ∨
      OracleCall.processedScore "milk, sugar, cocoa"
        = .healthIssues rowAllNull.ingredients ∨
      OracleCall.processedScore "milk, sugar, cocoa"
        = .productUrl rowAllNull.description
            (pyOr rowAllNull.brand_name rowAllNull.brand_owner)) :=
  ⟨(C9_amended_split_untrimmed rowFull oraclesOk storeOk).1
      { name := "Choco Milk", brand := some "Acme",
        ingredients := ["milk", " sugar", " cocoa"], category := some "Dairy",
        processed_score := 3, processed_score_explanation := "Moderate",
        nutrition_score := 2, nutrition_score_explanation := "Low",
        health_issues := hiSugar, url := some "https://example.com/choco-milk" } rfl,
   (C9_amended_split_untrimmed rowAllNull oraclesOk storeOk).2
      (OracleCall.processedScore "milk, sugar, cocoa") (by decide)⟩

/-! ## Claim C10 -/

/-- C10: when the stored url is NULL and `get_product_url` returns None,
the url column is excluded from the write set (no UPDATE carries a url
parameter) and stays NULL in the store, so a later read of the row (with
its other derived fields filled) re-attempts the lookup; and url is the
only derived field that can be freshly computed yet excluded from the
write set — a pending processed score, nutrition score or health-issues
field always has its column in any issued UPDATE. -/
theorem C10_url_retry_semantics :
    (∀ row o sb, row.url = none →
      get_product_url row.description (pyOr row.brand_name row.brand_owner) o
        = .ok none →
      (∀ u, (enrich_row row o sb).update = some u → "url" ∉ u.params.map Prod.fst) ∧
      (enrich_row row o sb).rowAfter.url = none) ∧
    (∀ row o sb, row.url = none → row.processed_score.isSome = true →
      row.nutrition_score.isSome = true → row.health_issues.isSome = true →
      urlCallOf row ∈ (enrich_row row o sb).calls) ∧
    (∀ row o sb u, (enrich_row row o sb).update = some u →
      (row.processed_score = none → "processed_score" ∈ u.params.map Prod.fst) ∧
      (row.nutrition_score = none → "nutrition_score" ∈ u.params.map Prod.fst) ∧
      (row.health_issues = none → "health_issues" ∈ u.params.map Prod.fst)) := by
  refine ⟨?_, ?_, ?_⟩
  · intro row o sb hur hg
    have huo : o.productUrl = .error .validationError := by
      revert hg
      unfold get_product_url
      rcases o.productUrl with e | c
      · cases e <;> simp
      · simp
    rcases hp : row.processed_score with _ | ps <;>
      rcases hpo : o.processedScore with ep | rp <;>
      (first
        | (rw [enrich_row_pending_err sb hp hpo];
           exact ⟨fun u hu => absurd hu (by simp), by simp [hur]⟩)
        | rw [enrich_row_pending_ok sb hp hpo]
        | rw [enrich_row_adopt o sb hp]) <;>
      rcases hn : row.nutrition_score with _ | ns <;>
      rcases hno : o.nutritionScore with en | rn <;>
      (first
        | (rw [nutritionStage_pending_err sb _ _ _ _ hn hno];
           exact ⟨fun u hu => absurd hu (by simp), by simp [hur]⟩)
        | rw [nutritionStage_pending_ok sb _ _ _ _ hn hno]
        | rw [nutritionStage_adopt o sb _ _ _ _ hn]) <;>
      rcases hh : row.health_issues with _ | hi <;>
      rcases hho : o.healthIssues with eh | rh <;>
      (first
        | (rw [healthStage_pending_err sb _ _ _ _ _ _ _ hh hho];
           exact ⟨fun u hu => absurd hu (by simp), by simp [hur]⟩)
        | rw [healthStage_pending_ok sb _ _ _ _ _ _ _ hh hho]
        | rw [healthStage_adopt o sb _ _ _ _ _ _ _ hh]) <;>
      rw [urlStage_pending_validationErr sb _ _ _ _ _ _ _ _ _ hur huo] <;>
      simp only [enrichFinal_eq] <;>
      refine ⟨fun u hu => ?_,
        (by (repeat' split) <;> simp [rowPatched, hur, pyTruthyOptStr])⟩ <;>
      split at hu <;>
      first
        | exact Option.noConfusion hu
        | (injection hu with h2; subst h2;
           simp [expectedParams_keys, pendingCols, pyTruthyOptStr])
  · intro row o sb hur hp hn hh
    rw [Option.isSome_iff_exists] at hp hn hh
    obtain ⟨ps, hp⟩ := hp
    obtain ⟨ns, hn⟩ := hn
    obtain ⟨hi, hh⟩ := hh
    rw [enrich_row_adopt o sb hp, nutritionStage_adopt o sb _ _ _ _ hn,
      healthStage_adopt o sb _ _ _ _ _ _ _ hh]
    rcases huo : o.productUrl with eu | ru <;> (try cases eu) <;>
      (first
        | rw [urlStage_pending_validationErr sb _ _ _ _ _ _ _ _ _ hur huo]
        | (rw [urlStage_pending_err sb _ _ _ _ _ _ _ _ _ hur huo (by decide)]; simp)
        | rw [urlStage_pending_ok sb _ _ _ _ _ _ _ _ _ hur huo]) <;>
      simp [enrichFinal_eq]
  · intro row o sb u hu
    rcases hp : row.processed_score with _ | ps <;>
      rcases hpo : o.processedScore with ep | rp <;>
      (first
        | (rw [enrich_row_pending_err sb hp hpo] at hu; exact absurd hu (by simp))
        | rw [enrich_row_pending_ok sb hp hpo] at hu
        | rw [enrich_row_adopt o sb hp] at hu) <;>
      rcases hn : row.nutrition_score with _ | ns <;>
      rcases hno : o.nutritionScore with en | rn <;>
      (first
        | (rw [nutritionStage_pending_err sb _ _ _ _ hn hno] at hu;
           exact absurd hu (by simp))
        | rw [nutritionStage_pending_ok sb _ _ _ _ hn hno] at hu
        | rw [nutritionStage_adopt o sb _ _ _ _ hn] at hu) <;>
      rcases hh : row.health_issues with _ | hi <;>
      rcases hho : o.healthIssues with eh | rh <;>
      (first
        | (rw [healthStage_pending_err sb _ _ _ _ _ _ _ hh hho] at hu;
           exact absurd hu (by simp))
        | rw [healthStage_pending_ok sb _ _ _ _ _ _ _ hh hho] at hu
        | rw [healthStage_adopt o sb _ _ _ _ _ _ _ hh] at hu) <;>
      rcases hur : row.url with _ | uu <;>
      rcases huo : o.productUrl with eu | ru <;>
      (try cases eu) <;>
      (first
        | rw [urlStage_pending_validationErr sb _ _ _ _ _ _ _ _ _ hur huo] at hu
        | (rw [urlStage_pending_err sb _ _ _ _ _ _ _ _ _ hur huo (by decide)] at hu;
           exact absurd hu (by simp))
        | rw [urlStage_pending_ok sb _ _ _ _ _ _ _ _ _ hur huo] at hu
        | rw [urlStage_adopt o sb _ _ _ _ _ _ _ _ _ hur] at hu) <;>
      simp only [enrichFinal_eq] at hu <;>
      split at hu <;>
      first
        | exact Option.noConfusion hu
        | (injection hu with h2; subst h2;
           refine ⟨fun hc => ?_, fun hc => ?_, fun hc => ?_⟩ <;>
             simp_all [expectedParams_keys, pendingCols])

/-- Witness for C10: on a concrete row with only the url missing and a
url lookup failing validation, no UPDATE carries a url column and the
stored url stays NULL; the next read of that row calls the url oracle
again; and on a row with a pending processed score the issued UPDATE
carries the processed-score column. -/
theorem C10_url_retry_semantics_witness :
    (enrich_row rowOnlyUrlNull oraclesUrlValidationErr storeOk).rowAfter.url = none ∧
    urlCallOf rowOnlyUrlNull
      ∈ (enrich_row rowOnlyUrlNull oraclesUrlValidationErr storeOk).calls ∧
    "processed_score"
      ∈ (List.map Prod.fst
          [("fdc_id", SqlValue.int 42), ("processed_score", SqlValue.int 4),
           ("processed_score_explanation", SqlValue.str "Ultra-processed")]) :=
  ⟨(C10_url_retry_semantics.1 rowOnlyUrlNull oraclesUrlValidationErr storeOk rfl rfl).2,
   C10_url_retry_semantics.2.1 rowOnlyUrlNull oraclesUrlValidationErr storeOk
     rfl rfl rfl rfl,
   (C10_url_retry_semantics.2.2 rowOnlyProcessedNull oraclesOk storeOk
     { query := "UPDATE products SET processed_score = :processed_score, processed_score_explanation = :processed_score_explanation WHERE fdc_id = :fdc_id",
       params := [("fdc_id", SqlValue.int 42), ("processed_score", SqlValue.int 4),
                  ("processed_score_explanation", SqlValue.str "Ultra-processed")] }
     (by decide)).1 rfl⟩
